import Mathlib

/-!
Verification of the reading-list date-bucketing logic of the research-tool
repository (the filters todaysPapers, thisWeeksPapers and upcomingPapers of
the reading-list page) against the recurrence specification.

Time is modelled as an integer count of milliseconds since the local epoch
(a fixed-offset local timeline, so local calendar arithmetic is plain
integer arithmetic).  Calendar conversion follows the civil-calendar
algorithms implemented by the JavaScript Date library the source relies on:
getDate, getMonth, getFullYear, the rollover behaviour of the
Date(year, month, day) constructor and of setMonth, date-fns startOfWeek and
endOfWeek with the default Sunday week start, and format(date, "yyyy-MM-dd")
equality, which on a fixed-offset timeline is equality of calendar-day
indices.
-/

/-- Milliseconds per calendar day, the constant 1000*60*60*24 used by the source. -/
def MS_PER_DAY : Int := 86400000

/-- Calendar-day index (days since 1970-01-01, local) of an instant in ms. -/
def dayIndex (t : Int) : Int := Int.fdiv t MS_PER_DAY

/-- JS setHours(0,0,0,0): the midnight instant of the calendar day of t. -/
def startOfDay (t : Int) : Int := dayIndex t * MS_PER_DAY

/-- Leap-year test of the proleptic Gregorian calendar. -/
def isLeap (y : Int) : Bool :=
  (Int.emod y 4 == 0 && Int.emod y 100 != 0) || Int.emod y 400 == 0

/-- Number of days of month m (1-based) in year y. -/
def daysInMonth (y m : Int) : Int :=
  if m == 2 then (if isLeap y then 29 else 28)
  else if m == 4 || m == 6 || m == 9 || m == 11 then 30
  else 31

/-- Day index of the civil date (y, m, d) with m 1-based; the formula is
linear in d, so day values outside the month roll over into adjacent months
exactly as the JS Date constructor does. -/
def daysFromCivil (y m d : Int) : Int :=
  let y2 := if m ≤ 2 then y - 1 else y
  let era := Int.fdiv y2 400
  let yoe := y2 - era * 400
  let mp := if m > 2 then m - 3 else m + 9
  let doy := Int.fdiv (153 * mp + 2) 5 + d - 1
  let doe := yoe * 365 + Int.fdiv yoe 4 - Int.fdiv yoe 100 + doy
  era * 146097 + doe - 719468

/-- Civil date (year, 1-based month, day of month) of a day index. -/
def civilFromDays (z : Int) : Int × Int × Int :=
  let z2 := z + 719468
  let era := Int.fdiv z2 146097
  let doe := z2 - era * 146097
  let yoe := Int.fdiv (doe - Int.fdiv doe 1460 + Int.fdiv doe 36524 - Int.fdiv doe 146096) 365
  let y := yoe + era * 400
  let doy := doe - (365 * yoe + Int.fdiv yoe 4 - Int.fdiv yoe 100)
  let mp := Int.fdiv (5 * doy + 2) 153
  let d := doy - Int.fdiv (153 * mp + 2) 5 + 1
  let m := if mp < 10 then mp + 3 else mp - 9
  (if m ≤ 2 then y + 1 else y, m, d)

/-- JS Date.getFullYear of an instant. -/
def jsGetFullYear (t : Int) : Int := (civilFromDays (dayIndex t)).1

/-- JS Date.getMonth of an instant (0-based, as in JavaScript). -/
def jsGetMonth (t : Int) : Int := (civilFromDays (dayIndex t)).2.1 - 1

/-- JS Date.getDate of an instant: the day of month. -/
def jsGetDate (t : Int) : Int := (civilFromDays (dayIndex t)).2.2

/-- JS new Date(y, m, d) with m 0-based: month and day overflow roll over
into adjacent months and years; the result is local midnight. -/
def jsMkDate (y m d : Int) : Int :=
  daysFromCivil (y + Int.fdiv m 12) (Int.emod m 12 + 1) d * MS_PER_DAY

/-- JS date.setMonth(date.getMonth() + 1) applied to a local-midnight date:
same day of month in the next month, rolling over when it does not exist. -/
def jsSetMonthPlus1 (t : Int) : Int :=
  jsMkDate (jsGetFullYear t) (jsGetMonth t + 1) (jsGetDate t)

/-- date-fns startOfWeek with the default Sunday week start: the midnight
instant of the most recent Sunday.  Day 0 (1970-01-01) was a Thursday. -/
def startOfWeekMs (t : Int) : Int :=
  (dayIndex t - Int.emod (dayIndex t + 4) 7) * MS_PER_DAY

/-- date-fns endOfWeek with the default Sunday week start: the last
millisecond of the following Saturday. -/
def endOfWeekMs (t : Int) : Int := startOfWeekMs t + 7 * MS_PER_DAY - 1

/-- Instant of a civil date plus a time of day (hours, minutes). -/
def mkInstant (y m d hh mi : Int) : Int :=
  daysFromCivil y m d * MS_PER_DAY + hh * 3600000 + mi * 60000

/-- A paper as consumed by the reading-list filters.  Only the fields the
filters read are modelled: id, scheduled_date (an instant, absent when the
paper is unscheduled) and the repeat tag (the source field is named repeat,
which is reserved in Lean, so it is called rpt here; its runtime values are
the strings daily, weekly, monthly and none, or absent). -/
structure Paper where
  id : String
  scheduled_date : Option Int
  rpt : Option String
deriving DecidableEq

/-- Predicate of the todaysPapers filter of the source, with the inline
new Date() clock read made the explicit parameter now:
membership is the yyyy-MM-dd equality of the scheduled date and today, or
else, for a present repeat tag, the switch on daily (always true), weekly
(floor day difference of the instants modulo 7, JS remainder) and monthly
(equal day of month), with any other tag falling to the default false. -/
def todaysPred (now : Int) (p : Paper) : Bool :=
  match p.scheduled_date with
  | Option.none => false
  | Option.some sched =>
    if dayIndex sched == dayIndex now then true
    else
      match p.rpt with
      | Option.none => false
      | Option.some r =>
        let daysSinceScheduled := Int.fdiv (now - sched) MS_PER_DAY
        if r == "daily" then true
        else if r == "weekly" then Int.tmod daysSinceScheduled 7 == 0
        else if r == "monthly" then jsGetDate sched == jsGetDate now
        else false

/-- The todaysPapers bucket: the source filters the papers array with the
membership test above, preserving input order. -/
def todaysPapers (papers : List Paper) (now : Int) : List Paper :=
  papers.filter (todaysPred now)

/-- Predicate of the thisWeeksPapers filter of the source, with the inline
new Date() clock read made the explicit parameter now: for an absent repeat
tag, isWithinInterval of the scheduled instant in [startOfWeek, endOfWeek];
for daily, true; for weekly, the next occurrence computed as
weekStart + (7 - (floor day difference weekStart minus scheduled) mod 7)
days, tested against the week interval; for monthly, the date
(year of today, month of today, day of month of the scheduled date) tested
against the week interval; default false. -/
def thisWeeksPred (now : Int) (p : Paper) : Bool :=
  match p.scheduled_date with
  | Option.none => false
  | Option.some sched =>
    let weekStart := startOfWeekMs now
    let weekEnd := endOfWeekMs now
    match p.rpt with
    | Option.none => decide (weekStart ≤ sched) && decide (sched ≤ weekEnd)
    | Option.some r =>
      if r == "daily" then true
      else if r == "weekly" then
        let daysSinceScheduled := Int.fdiv (weekStart - sched) MS_PER_DAY
        let daysToAdd := 7 - Int.tmod daysSinceScheduled 7
        let nextOccurrence := weekStart + daysToAdd * MS_PER_DAY
        decide (weekStart ≤ nextOccurrence) && decide (nextOccurrence ≤ weekEnd)
      else if r == "monthly" then
        let monthlyDate := jsMkDate (jsGetFullYear now) (jsGetMonth now) (jsGetDate sched)
        decide (weekStart ≤ monthlyDate) && decide (monthlyDate ≤ weekEnd)
      else false

/-- The thisWeeksPapers bucket of the source. -/
def thisWeeksPapers (papers : List Paper) (now : Int) : List Paper :=
  papers.filter (thisWeeksPred now)

/-- Predicate of the upcomingPapers filter of the source, with the inline
new Date() clock read made the explicit parameter now: today is the clock
read with setHours(0,0,0,0); any paper whose scheduled instant is before
today is rejected first; then a present repeat tag is switched on: daily
true, weekly 7 - (floor day difference) mod 7 > 0, monthly the date
(year of today, month of today, day of month of scheduled), advanced one
month when before today, tested >= today; default false; with no tag the
result is scheduled >= today. -/
def upcomingPred (now : Int) (p : Paper) : Bool :=
  match p.scheduled_date with
  | Option.none => false
  | Option.some sched =>
    let today := startOfDay now
    if sched < today then false
    else
      match p.rpt with
      | Option.none => decide (today ≤ sched)
      | Option.some r =>
        if r == "daily" then true
        else if r == "weekly" then
          let daysSinceScheduled := Int.fdiv (today - sched) MS_PER_DAY
          let daysUntilNext := 7 - Int.tmod daysSinceScheduled 7
          decide (0 < daysUntilNext)
        else if r == "monthly" then
          let n1 := jsMkDate (jsGetFullYear today) (jsGetMonth today) (jsGetDate sched)
          let nextOccurrence := if n1 < today then jsSetMonthPlus1 n1 else n1
          decide (today ≤ nextOccurrence)
        else false

/-- The upcomingPapers bucket of the source. -/
def upcomingPapers (papers : List Paper) (now : Int) : List Paper :=
  papers.filter (upcomingPred now)

/-- The whole classification pass of the reading-list page: the three
buckets, each computed against its own reading of the clock, because the
source calls new Date() separately inside each filter. -/
def classifyRaw (papers : List Paper) (now1 now2 now3 : Int) :
    List Paper × List Paper × List Paper :=
  (todaysPapers papers now1, thisWeeksPapers papers now2, upcomingPapers papers now3)

/-- Modelled from the spec: the closed recurrence tag set
{None, Daily, Weekly, Monthly} of a ScheduleEntry (the RecurrenceEngine of
the spec is a redesign target and has no implementation under src, so it is
modelled from the words of the spec). -/
inductive Recur
| none
| daily
| weekly
| monthly

/-- Modelled from the spec: occursOn over calendar-day indices.
None is true only on the anchor day; Daily on every day at or after the
anchor; Weekly when the whole-calendar-day difference is a non-negative
multiple of 7; Monthly on the day of month min(anchor day, days in the
target month), at or after the anchor. -/
def occursOnS (r : Recur) (anchor d : Int) : Bool :=
  match r with
  | Recur.none => d == anchor
  | Recur.daily => decide (anchor ≤ d)
  | Recur.weekly => decide (anchor ≤ d) && Int.emod (d - anchor) 7 == 0
  | Recur.monthly =>
    let c := civilFromDays d
    decide (anchor ≤ d) && c.2.2 == min (civilFromDays anchor).2.2 (daysInMonth c.1 c.2.1)

/-- Modelled from the spec: nextOccurrenceOnOrAfter over calendar-day
indices.  None yields the anchor when it is still at or after the reference
and nothing otherwise; Daily yields max(anchor, reference); Weekly the
smallest anchor + 7k at or after max(anchor, reference); Monthly the first
clamped day at or after the reference, starting from the anchor when the
reference precedes it, and otherwise in the month of the reference or the
month after. -/
def nextOccurrenceOnOrAfterS (r : Recur) (anchor ref : Int) : Option Int :=
  match r with
  | Recur.none => if ref ≤ anchor then Option.some anchor else Option.none
  | Recur.daily => Option.some (max anchor ref)
  | Recur.weekly => Option.some (anchor + 7 * Int.fdiv (max anchor ref - anchor + 6) 7)
  | Recur.monthly =>
    if ref ≤ anchor then Option.some anchor
    else
      let c := civilFromDays ref
      let dd := (civilFromDays anchor).2.2
      let c1 := daysFromCivil c.1 c.2.1 (min dd (daysInMonth c.1 c.2.1))
      if ref ≤ c1 then Option.some c1
      else
        let y2 := if c.2.1 == 12 then c.1 + 1 else c.1
        let m2 := if c.2.1 == 12 then 1 else c.2.1 + 1
        Option.some (daysFromCivil y2 m2 (min dd (daysInMonth y2 m2)))

/-- Modelled from the spec: occursInWindow computes the first occurrence at
or after the window start analytically and checks that it does not pass the
inclusive window end. -/
def occursInWindowS (r : Recur) (anchor ws we : Int) : Bool :=
  match nextOccurrenceOnOrAfterS r anchor ws with
  | Option.some d => decide (d ≤ we)
  | Option.none => false

/-- Modelled from the spec: the error taxonomy of the RecurrenceEngine. -/
inductive RErr
| invalidEntry
| invalidDate
deriving DecidableEq

/-- Modelled from the spec: the defensive boundary validation of occursOn,
which fails with InvalidEntry on an unrecognized recurrence tag instead of
returning a boolean. -/
def occursOnChecked (tag : Option String) (anchor d : Int) : Except RErr Bool :=
  match tag with
  | Option.none => Except.ok (occursOnS Recur.none anchor d)
  | Option.some s =>
    if s == "none" then Except.ok (occursOnS Recur.none anchor d)
    else if s == "daily" then Except.ok (occursOnS Recur.daily anchor d)
    else if s == "weekly" then Except.ok (occursOnS Recur.weekly anchor d)
    else if s == "monthly" then Except.ok (occursOnS Recur.monthly anchor d)
    else Except.error RErr.invalidEntry

/-- Bucket-order check used to state the ordering claim: the relevant
occurrence days (the anchor day of each entry) never decrease along the
bucket list. -/
def relevantDay (p : Paper) : Int :=
  match p.scheduled_date with
  | Option.some s => dayIndex s
  | Option.none => 0

/-- Boolean test that a bucket is sorted ascending by relevant occurrence
day. -/
def datesNondecreasing : List Paper → Bool
  | [] => true
  | [_] => true
  | a :: b :: rest => decide (relevantDay a ≤ relevantDay b) && datesNondecreasing (b :: rest)

/-- Claim C1 (code bug): the spec mandates that a Monthly entry anchored on
2024-01-31 occurs on the clamped day 2024-02-29 and that its next
occurrence on or after 2024-02-01 is 2024-02-29, but the source's monthly
check compares raw days of month without clamping, so the today filter
rejects 2024-02-29, and the upcoming filter drops the entry altogether on
2024-02-01 because its anchor instant is before that day's midnight. -/
theorem claim_C1_monthly_clamp_code_bug :
    todaysPred (mkInstant 2024 2 29 12 0)
      (Paper.mk "m1" (Option.some (mkInstant 2024 1 31 0 0)) (Option.some "monthly")) = false ∧
    upcomingPred (mkInstant 2024 2 1 8 0)
      (Paper.mk "m1" (Option.some (mkInstant 2024 1 31 0 0)) (Option.some "monthly")) = false ∧
    occursOnS Recur.monthly (daysFromCivil 2024 1 31) (daysFromCivil 2024 2 29) = true ∧
    nextOccurrenceOnOrAfterS Recur.monthly (daysFromCivil 2024 1 31) (daysFromCivil 2024 2 1) =
      Option.some (daysFromCivil 2024 2 29) :=
  ⟨rfl, rfl, rfl, rfl⟩

/-- Claim C2 (code bug): the spec makes a Daily entry occur only on days at
or after its anchor, but the source's daily branch returns true
unconditionally, so a daily paper anchored 2024-06-01 is already reported
by the today filter on 2024-03-18. -/
theorem claim_C2_daily_future_anchor_code_bug :
    todaysPred (mkInstant 2024 3 18 12 0)
      (Paper.mk "d1" (Option.some (mkInstant 2024 6 1 0 0)) (Option.some "daily")) = true ∧
    occursOnS Recur.daily (daysFromCivil 2024 6 1) (daysFromCivil 2024 3 18) = false :=
  ⟨rfl, rfl⟩

/-- Claim C3 (code bug): the weekly membership the spec asks for is a
whole-calendar-day difference that is a non-negative multiple of 7.  The
source instead floors an instant difference and takes a JS remainder with
no lower bound: the claim's own scenario (anchor Monday 2024-03-04, true on
2024-03-18, false on 2024-03-19) agrees at aligned midnights, but an anchor
one week in the future (2024-03-25) is reported as occurring on 2024-03-18,
and an anchor at 10:00 is missed on the 14th day when the clock is read at
09:00, although the calendar-day difference is exactly 14. -/
theorem claim_C3_weekly_day_difference_code_bug :
    todaysPred (mkInstant 2024 3 18 0 0)
      (Paper.mk "w1" (Option.some (mkInstant 2024 3 4 0 0)) (Option.some "weekly")) = true ∧
    todaysPred (mkInstant 2024 3 19 0 0)
      (Paper.mk "w1" (Option.some (mkInstant 2024 3 4 0 0)) (Option.some "weekly")) = false ∧
    todaysPred (mkInstant 2024 3 18 0 0)
      (Paper.mk "w1" (Option.some (mkInstant 2024 3 25 0 0)) (Option.some "weekly")) = true ∧
    occursOnS Recur.weekly (daysFromCivil 2024 3 25) (daysFromCivil 2024 3 18) = false ∧
    todaysPred (mkInstant 2024 3 18 9 0)
      (Paper.mk "w1" (Option.some (mkInstant 2024 3 4 10 0)) (Option.some "weekly")) = false ∧
    occursOnS Recur.weekly (daysFromCivil 2024 3 4) (daysFromCivil 2024 3 18) = true :=
  ⟨rfl, rfl, rfl, rfl, rfl, rfl⟩

/-- Claim C4 (code bug): the spec gives a Daily entry the next occurrence
max(anchor, reference), which always exists, so a daily entry anchored in
the past belongs to the upcoming bucket; the source's upcoming filter
rejects every paper whose scheduled instant precedes the midnight of the
reference day before it even looks at the repeat tag, so a daily paper
anchored 2024-01-01 is missing from upcoming on 2024-06-01. -/
theorem claim_C4_upcoming_daily_past_code_bug :
    upcomingPred (mkInstant 2024 6 1 10 0)
      (Paper.mk "d2" (Option.some (mkInstant 2024 1 1 9 0)) (Option.some "daily")) = false ∧
    nextOccurrenceOnOrAfterS Recur.daily (daysFromCivil 2024 1 1) (daysFromCivil 2024 6 1) =
      Option.some (daysFromCivil 2024 6 1) :=
  ⟨rfl, rfl⟩

/-- Claim C5 (code bug): occursInWindow per the spec is true exactly when
some occurrence lies inside the inclusive window, so a weekly occurrence
falling on the window start is inside it.  The source's weekly this-week
branch computes weekStart plus (7 - difference mod 7) days, which is never
weekStart itself, so a weekly paper anchored Sunday 2024-03-03, whose
occurrence 2024-03-17 is exactly the week start for 2024-03-18, is excluded
from the this-week bucket; the claim's Daily scenario (anchored 2024-01-01,
inside the week of 2024-03-18) does hold on the source. -/
theorem claim_C5_window_start_occurrence_code_bug :
    thisWeeksPred (mkInstant 2024 3 18 12 0)
      (Paper.mk "w2" (Option.some (mkInstant 2024 3 3 0 0)) (Option.some "weekly")) = false ∧
    occursOnS Recur.weekly (daysFromCivil 2024 3 3) (daysFromCivil 2024 3 17) = true ∧
    occursInWindowS Recur.weekly (daysFromCivil 2024 3 3)
      (daysFromCivil 2024 3 17) (daysFromCivil 2024 3 23) = true ∧
    thisWeeksPred (mkInstant 2024 3 18 12 0)
      (Paper.mk "d3" (Option.some (mkInstant 2024 1 1 0 0)) (Option.some "daily")) = true :=
  ⟨rfl, rfl, rfl, rfl⟩

/-- Claim C7 (code bug): the spec requires the reference instant to be an
explicit parameter so a classification pass is deterministic, but each
source filter calls new Date() itself, so one pass reads the clock three
times.  With every read pinned to one instant the pass is the pure function
classifyRaw modelled here, and one millisecond of skew between reads flips
a paper anchored 2024-03-18 out of the today and upcoming buckets. -/
theorem claim_C7_inline_clock_code_bug :
    classifyRaw [Paper.mk "t7" (Option.some (mkInstant 2024 3 18 10 0)) Option.none]
        (mkInstant 2024 3 19 0 0 - 1) (mkInstant 2024 3 19 0 0 - 1) (mkInstant 2024 3 19 0 0 - 1) =
      ([Paper.mk "t7" (Option.some (mkInstant 2024 3 18 10 0)) Option.none],
       [Paper.mk "t7" (Option.some (mkInstant 2024 3 18 10 0)) Option.none],
       [Paper.mk "t7" (Option.some (mkInstant 2024 3 18 10 0)) Option.none]) ∧
    classifyRaw [Paper.mk "t7" (Option.some (mkInstant 2024 3 18 10 0)) Option.none]
        (mkInstant 2024 3 19 0 0) (mkInstant 2024 3 19 0 0) (mkInstant 2024 3 19 0 0) =
      ([], [Paper.mk "t7" (Option.some (mkInstant 2024 3 18 10 0)) Option.none], []) :=
  ⟨rfl, rfl⟩

/-- Claim C6, counterexample: a paper carrying the explicit repeat tag none
and anchored 2024-06-01 still has its single occurrence ahead of the
reference 2024-01-01 (its spec next occurrence is the anchor, not None),
yet the source's upcoming filter excludes it, because the tag none falls
into the default-false branch of the switch. -/
theorem claim_C6_counterexample :
    dayIndex (mkInstant 2024 1 1 0 0) ≤ dayIndex (mkInstant 2024 6 1 0 0) ∧
    nextOccurrenceOnOrAfterS Recur.none (daysFromCivil 2024 6 1) (daysFromCivil 2024 1 1) =
      Option.some (daysFromCivil 2024 6 1) ∧
    upcomingPred (mkInstant 2024 1 1 0 0)
      (Paper.mk "n1" (Option.some (mkInstant 2024 6 1 0 0)) (Option.some "none")) = false :=
  ⟨by decide, rfl, rfl⟩

/-- Claim C6, amended: an entry with no recurrence occurs exactly on its
anchor calendar day (the today filter is the yyyy-MM-dd equality, whether
the repeat field is absent or the explicit tag none); when the repeat field
is absent, membership in the upcoming bucket holds exactly when the anchor
instant is at or after the midnight of the reference day, i.e. when the
anchor calendar day has not passed; an entry carrying the explicit tag none
is excluded from the upcoming bucket regardless of its anchor. -/
theorem claim_C6_none_recurrence_amended (p : Paper) (sched now : Int)
    (hs : p.scheduled_date = Option.some sched)
    (hr : p.rpt = Option.none ∨ p.rpt = Option.some "none") :
    todaysPred now p = (dayIndex sched == dayIndex now) ∧
    (p.rpt = Option.none → upcomingPred now p = decide (startOfDay now ≤ sched)) ∧
    (p.rpt = Option.some "none" → upcomingPred now p = false) := by
  unfold todaysPred upcomingPred
  rw [hs]
  rcases hr with hr | hr <;> rw [hr]
  · refine ⟨?_, ?_, ?_⟩
    · cases hb : (dayIndex sched == dayIndex now) <;> simp [hb]
    · intro _
      by_cases hlt : sched < startOfDay now
      · have : ¬ startOfDay now ≤ sched := by omega
        simp [hlt, this]
      · simp [hlt]
    · intro hx
      exact absurd hx (by simp)
  · refine ⟨?_, ?_, ?_⟩
    · cases hb : (dayIndex sched == dayIndex now) <;> simp [hb]
    · intro hx
      exact absurd hx (by simp)
    · intro _
      by_cases hlt : sched < startOfDay now <;> simp [hlt]

/-- Claim C6, witness: the amended statement evaluated at a paper with an
absent repeat field anchored at the epoch instant. -/
theorem claim_C6_witness :
    (Paper.mk "n2" (Option.some 0) Option.none).scheduled_date = Option.some 0 ∧
      (todaysPred 0 (Paper.mk "n2" (Option.some 0) Option.none) = (dayIndex 0 == dayIndex 0) ∧
       ((Paper.mk "n2" (Option.some 0) Option.none).rpt = Option.none →
         upcomingPred 0 (Paper.mk "n2" (Option.some 0) Option.none) = decide (startOfDay 0 ≤ 0)) ∧
       ((Paper.mk "n2" (Option.some 0) Option.none).rpt = Option.some "none" →
         upcomingPred 0 (Paper.mk "n2" (Option.some 0) Option.none) = false)) :=
  ⟨rfl, claim_C6_none_recurrence_amended (Paper.mk "n2" (Option.some 0) Option.none) 0 0 rfl
    (Or.inl rfl)⟩

/-- Claim C8, counterexample: two one-time papers scheduled 2024-03-20 (id
b) and 2024-03-19 (id a), given to the filters in that order on 2024-03-18,
are both kept by the upcoming filter and come out in input order, so the
bucket is not ascending by occurrence date (and the ids are not in order
either): the source never sorts a bucket. -/
theorem claim_C8_counterexample :
    upcomingPapers
        [Paper.mk "b" (Option.some (mkInstant 2024 3 20 0 0)) Option.none,
         Paper.mk "a" (Option.some (mkInstant 2024 3 19 0 0)) Option.none]
        (mkInstant 2024 3 18 0 0) =
      [Paper.mk "b" (Option.some (mkInstant 2024 3 20 0 0)) Option.none,
       Paper.mk "a" (Option.some (mkInstant 2024 3 19 0 0)) Option.none] ∧
    datesNondecreasing
      (upcomingPapers
        [Paper.mk "b" (Option.some (mkInstant 2024 3 20 0 0)) Option.none,
         Paper.mk "a" (Option.some (mkInstant 2024 3 19 0 0)) Option.none]
        (mkInstant 2024 3 18 0 0)) = false :=
  ⟨rfl, rfl⟩

/-- Claim C8, amended: within each bucket the entries appear in the order
of the input collection: every bucket is an order-preserving sublist of the
papers array (the source buckets are plain array filters), and no sorting
by occurrence date or id takes place. -/
theorem claim_C8_buckets_preserve_input_order (ps : List Paper) (now : Int) :
    List.Sublist (todaysPapers ps now) ps ∧
    List.Sublist (thisWeeksPapers ps now) ps ∧
    List.Sublist (upcomingPapers ps now) ps :=
  ⟨List.filter_sublist ps, List.filter_sublist ps, List.filter_sublist ps⟩

/-- Claim C9, counterexample: a paper with the unrecognized repeat tag
yearly, scheduled 2024-03-20 and classified on 2024-03-19, makes every
filter return the plain boolean false through the default branch of the
switch, while the validating occursOn the spec asks for fails with
InvalidEntry on that tag. -/
theorem claim_C9_counterexample :
    todaysPred (mkInstant 2024 3 19 0 0)
      (Paper.mk "y1" (Option.some (mkInstant 2024 3 20 0 0)) (Option.some "yearly")) = false ∧
    thisWeeksPred (mkInstant 2024 3 19 0 0)
      (Paper.mk "y1" (Option.some (mkInstant 2024 3 20 0 0)) (Option.some "yearly")) = false ∧
    upcomingPred (mkInstant 2024 3 19 0 0)
      (Paper.mk "y1" (Option.some (mkInstant 2024 3 20 0 0)) (Option.some "yearly")) = false ∧
    occursOnChecked (Option.some "yearly") (daysFromCivil 2024 3 20) (daysFromCivil 2024 3 20) =
      Except.error RErr.invalidEntry :=
  ⟨rfl, rfl, rfl, rfl⟩

/-- Claim C9, amended: a recurrence tag outside daily, weekly, monthly is
silently treated as non-recurring by every filter: the today filter keeps
only the anchor-day equality, and the this-week and upcoming filters reject
the paper outright; no error of any kind is signaled to the caller. -/
theorem claim_C9_unrecognized_tag_amended (p : Paper) (sched now : Int) (tag : String)
    (hs : p.scheduled_date = Option.some sched) (hr : p.rpt = Option.some tag)
    (h1 : tag ≠ "daily") (h2 : tag ≠ "weekly") (h3 : tag ≠ "monthly") :
    todaysPred now p = (dayIndex sched == dayIndex now) ∧
    thisWeeksPred now p = false ∧
    upcomingPred now p = false := by
  unfold todaysPred thisWeeksPred upcomingPred
  rw [hs, hr]
  have b1 : (tag == "daily") = false := by simp [h1]
  have b2 : (tag == "weekly") = false := by simp [h2]
  have b3 : (tag == "monthly") = false := by simp [h3]
  refine ⟨?_, ?_, ?_⟩
  · cases hb : (dayIndex sched == dayIndex now) <;> simp [hb, b1, b2, b3]
  · simp [b1, b2, b3]
  · by_cases hlt : sched < startOfDay now <;> simp [hlt, b1, b2, b3]

/-- Claim C9, witness: the amended statement evaluated on the concrete
unrecognized tag yearly. -/
theorem claim_C9_witness :
    ("yearly" ≠ "daily" ∧ "yearly" ≠ "weekly" ∧ "yearly" ≠ "monthly") ∧
      (todaysPred 0 (Paper.mk "y2" (Option.some 5) (Option.some "yearly")) =
        (dayIndex 5 == dayIndex 0) ∧
       thisWeeksPred 0 (Paper.mk "y2" (Option.some 5) (Option.some "yearly")) = false ∧
       upcomingPred 0 (Paper.mk "y2" (Option.some 5) (Option.some "yearly")) = false) :=
  ⟨⟨by decide, by decide, by decide⟩,
    claim_C9_unrecognized_tag_amended (Paper.mk "y2" (Option.some 5) (Option.some "yearly")) 5 0
      "yearly" rfl rfl (by decide) (by decide) (by decide)⟩

/-- Claim C10: a paper with no scheduled date is rejected by the guard at
the top of each of the three filters, whatever its repeat tag and whatever
the reference instant, and no error is raised. -/
theorem claim_C10_unscheduled_never_bucketed (p : Paper) (now : Int)
    (h : p.scheduled_date = Option.none) :
    todaysPred now p = false ∧ thisWeeksPred now p = false ∧ upcomingPred now p = false := by
  unfold todaysPred thisWeeksPred upcomingPred
  rw [h]
  exact ⟨rfl, rfl, rfl⟩

/-- Claim C10, witness: the statement evaluated on a concrete unscheduled
paper. -/
theorem claim_C10_witness :
    (Paper.mk "u" Option.none (Option.some "daily")).scheduled_date = Option.none ∧
      (todaysPred 0 (Paper.mk "u" Option.none (Option.some "daily")) = false ∧
       thisWeeksPred 0 (Paper.mk "u" Option.none (Option.some "daily")) = false ∧
       upcomingPred 0 (Paper.mk "u" Option.none (Option.some "daily")) = false) :=
  ⟨rfl, claim_C10_unscheduled_never_bucketed (Paper.mk "u" Option.none (Option.some "daily")) 0 rfl⟩
